import Mathlib

/-!
# Verification of `StorageDistributed` (distributed-table engine)

Shallow embedding of `dbms/src/Storages/StorageDistributed.cpp`: the query
rewriters, the constructor (including the `write_enabled` flag and directory
monitor discovery), `read`'s processing-stage selection, `write`, `alter`,
`shutdown`, `getShardCount`, and the `reshardPartitions` coordinator-client
control flow (its coordinator calls, one-shot error flag, and cleanup path).

External collaborators that the file only calls (the resharding worker, the
filesystem, the cluster object, AST classes defined elsewhere) are modelled by
explicit parameters: a failure oracle for worker calls, a directory listing for
the filesystem, shard counts for the cluster, and record types whose untouched
parts are abstracted into a `rest` payload.
-/

namespace StorageDistributedSpec

/-- Cluster topology as seen by `StorageDistributed`: the file only calls
`getLocalShardCount()` and `getRemoteShardCount()`. -/
structure Cluster where
  localShardCount : Nat
  remoteShardCount : Nat
deriving DecidableEq, Repr

def Cluster.getLocalShardCount (c : Cluster) : Nat := c.localShardCount

def Cluster.getRemoteShardCount (c : Cluster) : Nat := c.remoteShardCount

/-- The settings fields that `StorageDistributed::read` consults for the
processing-stage decision. -/
structure Settings where
  max_parallel_replicas : Nat
  distributed_group_by_no_merge : Bool
deriving DecidableEq, Repr

inductive QueryProcessingStage where
  | Complete
  | WithMergeableState
deriving DecidableEq, Repr

/-- `ASTSelectQuery` as used by `rewriteSelectQuery`: the function touches only
the `database` and `table` identifier pointers; every other clause of the class
(defined outside this file) is abstracted into `rest`. -/
structure ASTSelectQuery where
  database : Option String
  table : Option String
  rest : List String
deriving DecidableEq, Repr

/-- `ASTInsertQuery` as used by `rewriteInsertQuery`: bare-string `database` and
`table` fields, the `select` sub-query pointer, and the remaining fields
(column list, row payload) abstracted into `rest`. -/
structure ASTInsertQuery where
  database : String
  table : String
  selectSubquery : Option ASTSelectQuery
  rest : List String
deriving DecidableEq, Repr

/-- A query AST pointer: the two shapes the rewriters `typeid_cast` to, plus
anything else (on which the cast throws). -/
inductive AST where
  | selectQ (q : ASTSelectQuery)
  | insertQ (q : ASTInsertQuery)
  | otherQ
deriving DecidableEq, Repr

/-- `rewriteSelectQuery`: clone the query and replace the database and table
identifier nodes. The C++ `typeid_cast` throws when the input is not an
`ASTSelectQuery`; that is `none` here. Cloning first means the input value is
never modified (automatic in this pure embedding). -/
def rewriteSelectQuery (query : AST) (database : String) (table : String) : Option AST :=
  match query with
  | .selectQ q => some (.selectQ { q with database := some database, table := some table })
  | _ => none

/-- `rewriteInsertQuery`: clone the query, replace the bare-string database and
table names, and null out the `select` sub-query (make sure the forwarded query
is not an INSERT SELECT). -/
def rewriteInsertQuery (query : AST) (database : String) (table : String) : Option AST :=
  match query with
  | .insertQ q =>
      some (.insertQ { q with database := database, table := table, selectSubquery := none })
  | _ => none

/-- One entry of the table's on-disk directory listing. The startup scan reads
only the name and `isDirectory()`; `pendingBatches` records how many serialized
batches sit in the subdirectory, which the scan deliberately ignores. -/
structure DirEntry where
  entryName : String
  isDirectory : Bool
  pendingBatches : Nat
deriving DecidableEq, Repr

/-- In-memory state of a `StorageDistributed` table: the fields the embedded
operations read or write. `directory_monitors` keeps only the keys of the C++
name-to-monitor map. -/
structure StorageDistributed where
  name : String
  columns : List (String × String)
  remote_database : String
  remote_table : String
  cluster : Cluster
  sharding_key : Option String
  write_enabled : Bool
  path : String
  directory_monitors : List String
deriving DecidableEq, Repr

/-- `directory_monitors.emplace(name, ...)` on the key set of the monitor map:
insert the name if no monitor exists under it yet (map emplace is a no-op on an
existing key). -/
def emplaceMonitor (ms : List String) (n : String) : List String :=
  if n ∈ ms then ms else n :: ms

/-- `createDirectoryMonitor`: emplace a monitor for this name into the map. -/
def StorageDistributed.createDirectoryMonitor (t : StorageDistributed) (n : String) :
    StorageDistributed :=
  { t with directory_monitors := emplaceMonitor t.directory_monitors n }

/-- `createDirectoryMonitors`: nothing to do when no data path is configured;
otherwise create the directory and adopt every subdirectory of the listing as a
delivery queue, one `createDirectoryMonitor` per subdirectory name. `listing`
stands for the `Poco::DirectoryIterator` contents. -/
def StorageDistributed.createDirectoryMonitors (t : StorageDistributed)
    (listing : List DirEntry) : StorageDistributed :=
  if t.path.isEmpty then t
  else
    let subdirNames := (listing.filter (·.isDirectory)).map (·.entryName)
    { t with directory_monitors := subdirNames.foldl emplaceMonitor t.directory_monitors }

/-- `requireDirectoryMonitor`: create the monitor only when absent. -/
def StorageDistributed.requireDirectoryMonitor (t : StorageDistributed) (n : String) :
    StorageDistributed :=
  if n ∈ t.directory_monitors then t else t.createDirectoryMonitor n

/-- The constructor: `write_enabled` is
`!data_path_.empty() && ((local + remote < 2) || sharding_key_)`, `path` is
empty or `data_path_ + escapeForFileName(name) + '/'` (the escaping helper
lives outside this file; it never turns a nonempty name into an empty one, and
only the emptiness of `path` is ever consulted, so it is elided), and the body
runs `createDirectoryMonitors()` over the directory listing. -/
def StorageDistributed.create (name : String) (columns : List (String × String))
    (remote_database : String) (remote_table : String) (cluster : Cluster)
    (sharding_key : Option String) (data_path : String) (listing : List DirEntry) :
    StorageDistributed :=
  let t : StorageDistributed :=
    { name := name
      columns := columns
      remote_database := remote_database
      remote_table := remote_table
      cluster := cluster
      sharding_key := sharding_key
      write_enabled := !data_path.isEmpty &&
        (decide (cluster.getLocalShardCount + cluster.getRemoteShardCount < 2)
          || sharding_key.isSome)
      path := if data_path.isEmpty then "" else data_path ++ name ++ "/"
      directory_monitors := [] }
  t.createDirectoryMonitors listing

/-- `result_size` in `StorageDistributed::read`:
`remote shards * max_parallel_replicas + local shards`. -/
def StorageDistributed.readResultSize (t : StorageDistributed) (settings : Settings) : Nat :=
  t.cluster.getRemoteShardCount * settings.max_parallel_replicas
    + t.cluster.getLocalShardCount

/-- The processing stage `read` reports through its out-parameter. -/
def StorageDistributed.processedStage (t : StorageDistributed) (settings : Settings) :
    QueryProcessingStage :=
  if t.readResultSize settings == 1 || settings.distributed_group_by_no_merge then
    .Complete
  else
    .WithMergeableState

/-- `StorageDistributed::read`: select the processing stage, rewrite the query
toward the remote database/table, and dispatch. The dispatched streams are
external; the observable result kept here is the stage and the rewritten
query (`none` when the query is not a select, where the cast throws). -/
def StorageDistributed.read (t : StorageDistributed) (query : AST) (settings : Settings) :
    Option (QueryProcessingStage × AST) :=
  (rewriteSelectQuery query t.remote_database t.remote_table).map
    (fun q => (t.processedStage settings, q))

inductive WriteError where
  | storageRequiresParameter
  | malformedStatement
deriving DecidableEq, Repr

/-- `StorageDistributed::write`: throw `STORAGE_REQUIRES_PARAMETER` when the
flag computed at construction is off; otherwise hand the rewritten insert query
to a `DistributedBlockOutputStream` (represented by the rewritten query it
carries). A non-insert query makes the rewriter's cast throw. -/
def StorageDistributed.write (t : StorageDistributed) (query : AST) : Except WriteError AST :=
  if !t.write_enabled then
    .error .storageRequiresParameter
  else
    match rewriteInsertQuery query t.remote_database t.remote_table with
    | some q => .ok q
    | none => .error .malformedStatement

/-- `StorageDistributed::shutdown`: `directory_monitors.clear()`. -/
def StorageDistributed.shutdown (t : StorageDistributed) : StorageDistributed :=
  { t with directory_monitors := [] }

/-- `StorageDistributed::getShardCount`: `cluster.getRemoteShardCount()`. -/
def StorageDistributed.getShardCount (t : StorageDistributed) : Nat :=
  t.cluster.getRemoteShardCount

/-! ## `alter` -/

/-- The `AlterCommand::Type` values relevant to `StorageDistributed::alter`. -/
inductive AlterCommandType where
  | addColumn
  | dropColumn
  | modifyColumn
  | modifyPrimaryKey
deriving DecidableEq, Repr

structure AlterCommand where
  type : AlterCommandType
  column_name : String
  column_type : String
deriving DecidableEq, Repr

/-- Modelled from the spec: `AlterCommands::apply` is declared outside this
file; the spec says structural changes (add/drop/modify column, defaults) are
applied to the in-memory schema. One command's effect on the name-to-type
schema list. -/
def AlterCommand.applyOne (cmd : AlterCommand) (cols : List (String × String)) :
    List (String × String) :=
  match cmd.type with
  | .addColumn => cols ++ [(cmd.column_name, cmd.column_type)]
  | .dropColumn => cols.filter (fun c => c.1 ≠ cmd.column_name)
  | .modifyColumn => cols.map (fun c =>
      if c.1 = cmd.column_name then (c.1, cmd.column_type) else c)
  | .modifyPrimaryKey => cols

inductive AlterError where
  | notImplemented
deriving DecidableEq, Repr

/-- Observable side effects of `alter`: taking the structure lock and the
owning database's `alterTable` metadata-persistence call. -/
inductive AlterEvent where
  | lockStructureForAlter
  | alterTableCall
deriving DecidableEq, Repr

/-- `StorageDistributed::alter`: scan all commands for `MODIFY_PRIMARY_KEY`
and throw `NOT_IMPLEMENTED` if one is present — before the structure lock is
taken and before anything is applied. Otherwise take the lock, apply the
commands to the in-memory schema, and persist through the database's
`alterTable`. Returns the thrown error (if any), the resulting table state and
the emitted side-effect trace. -/
def StorageDistributed.alter (t : StorageDistributed) (params : List AlterCommand) :
    Option AlterError × StorageDistributed × List AlterEvent :=
  if params.any (fun p => p.type == .modifyPrimaryKey) then
    (some .notImplemented, t, [])
  else
    (none,
     { t with columns := params.foldl (fun cs p => p.applyOne cs) t.columns },
     [.lockStructureForAlter, .alterTableCall])

/-! ## `reshardPartitions`

The body drives external collaborators (the `ReshardingWorker`, the cluster
proxy dispatch, the unioned shard stream), each of which can throw. A
`ReshardScenario` is the failure oracle saying which of those calls throws in a
given execution; the embedding replays the control flow of the C++ body under
that oracle, producing the thrown error (if any) and the ordered trace of
worker/log events. -/

/-- Observable events of one `reshardPartitions` call. `ok` on a worker call
records whether that call returned normally (`false` = it threw).
`logException` is `tryLogCurrentException`; `logDump` is the
`LOG_ERROR(log, dumped_coordinator_state)` in the catch handlers. -/
inductive WorkerEvent where
  | createCoordinator
  | registerQuery
  | setStatusError (ok : Bool)
  | dumpState (ok : Bool)
  | deleteCoordinator (ok : Bool)
  | logException
  | logDump
deriving DecidableEq, Repr

/-- Which external calls throw during one `reshardPartitions` execution.
`coordinatorSupplied` is whether the caller's `coordinator` field is non-null.
`streamFails` means reading a block from the unioned per-shard stream throws
(which first fires the union's exception callback). -/
structure ReshardScenario where
  workerStarted : Bool
  coordinatorSupplied : Bool
  registerFails : Bool
  dispatchFails : Bool
  streamFails : Bool
  callbackSetStatusFails : Bool
  cleanupSetStatusFails : Bool
  dumpFails : Bool
  deleteFails : Bool
deriving DecidableEq, Repr

inductive ReshardError where
  | reshardingNoWorker
  | reshardingInvalidParameters
  | registerQueryError
  | dispatchError
  | streamReadError
deriving DecidableEq, Repr

/-- The `dumpCoordinatorState` / `deleteCoordinator` tail of
`handle_exception`'s try block: a throwing call aborts the rest of the block
and lands in the `catch (...)` that logs. -/
def dumpAndDelete (s : ReshardScenario) : List WorkerEvent :=
  if s.dumpFails then
    [.dumpState false, .logException]
  else
    .dumpState true ::
      (if s.deleteFails then [WorkerEvent.deleteCoordinator false, .logException]
       else [WorkerEvent.deleteCoordinator true])

/-- The `handle_exception` lambda: inside one try block — set the status to
`STATUS_ERROR` unless `has_notified_error` is already set, dump the coordinator
state, delete the coordinator; any throw lands in the catch that calls
`tryLogCurrentException`. `flag` is the value of `has_notified_error`. -/
def handleException (flag : Bool) (s : ReshardScenario) : List WorkerEvent :=
  if flag then
    dumpAndDelete s
  else if s.cleanupSetStatusFails then
    [.setStatusError false, .logException]
  else
    .setStatusError true :: dumpAndDelete s

/-- The union stream's `exception_callback`: call
`setStatus(coordinator_id, STATUS_ERROR)` and only then set
`has_notified_error = true`; its own throw is caught and logged inside the
callback. Returns the events and the resulting flag value. -/
def exceptionCallback (s : ReshardScenario) : List WorkerEvent × Bool :=
  if s.callbackSetStatusFails then
    ([.setStatusError false, .logException], false)
  else
    ([.setStatusError true], true)

/-- `StorageDistributed::reshardPartitions` under a failure scenario:
`isStarted` check, `COORDINATE WITH` rejection, `createCoordinator`, the try
body (`registerQuery`, dispatch, drain the unioned stream), and the catch
handlers (`handle_exception`, `LOG_ERROR` of the dump, `throw;` of the original
exception). The first component is the exception propagated to the caller
(`none` = normal return). -/
def reshardPartitions (s : ReshardScenario) : Option ReshardError × List WorkerEvent :=
  if !s.workerStarted then
    (some .reshardingNoWorker, [])
  else if s.coordinatorSupplied then
    (some .reshardingInvalidParameters, [])
  else
    if s.registerFails then
      (some .registerQueryError,
        [WorkerEvent.createCoordinator, .registerQuery]
          ++ handleException false s ++ [WorkerEvent.logDump])
    else if s.dispatchFails then
      (some .dispatchError,
        [WorkerEvent.createCoordinator, .registerQuery]
          ++ handleException false s ++ [WorkerEvent.logDump])
    else if s.streamFails then
      let cb := exceptionCallback s
      (some .streamReadError,
        [WorkerEvent.createCoordinator, .registerQuery]
          ++ cb.1 ++ handleException cb.2 s ++ [WorkerEvent.logDump])
    else
      (none, [WorkerEvent.createCoordinator, .registerQuery])

/-- The original exception of a failing try body, per the code's order:
`registerQuery` throws first, else the dispatch, else the stream read. -/
def originalError (s : ReshardScenario) : ReshardError :=
  if s.registerFails then .registerQueryError
  else if s.dispatchFails then .dispatchError
  else .streamReadError

/-- Number of `setStatus(..., STATUS_ERROR, ...)` invocations in a trace
(throwing or not). -/
def countSetStatusAttempts (tr : List WorkerEvent) : Nat :=
  tr.countP (fun e => match e with | .setStatusError _ => true | _ => false)

/-- Number of `setStatus(..., STATUS_ERROR, ...)` invocations that returned
normally, i.e. actually recorded the `ERROR` status. -/
def countSetStatusSuccesses (tr : List WorkerEvent) : Nat :=
  tr.countP (fun e => e == WorkerEvent.setStatusError true)

/-! ## Theorems for the resharding claims -/

/-- C1 (counterexample): the claim says `setStatus(coordinator_id,
STATUS_ERROR, ...)` is invoked at most once per execution across the stream
callback and the outer cleanup combined. In the execution where reading the
unioned stream throws and the callback's own `setStatus` call also throws, the
callback leaves `has_notified_error` unset, so `handle_exception` invokes
`setStatus` a second time: two invocations. -/
theorem reshard_set_status_invoked_twice :
    countSetStatusAttempts
      (reshardPartitions ⟨true, false, false, false, true, true, false, false, false⟩).2 = 2 := by
  decide

/-- C1 (amended): across the stream-failure callback and the outer exception
cleanup combined, the `ERROR` status is successfully recorded at most once; a
second `setStatus` invocation is ever attempted only in a stream-failure
execution whose first (callback) invocation itself threw, so no successful
status write is followed by another. -/
theorem reshard_error_status_written_at_most_once (s : ReshardScenario) :
    countSetStatusSuccesses (reshardPartitions s).2 ≤ 1 ∧
    countSetStatusAttempts (reshardPartitions s).2 ≤ 2 ∧
    (countSetStatusAttempts (reshardPartitions s).2 = 2 →
      s.streamFails = true ∧ s.callbackSetStatusFails = true) := by
  obtain ⟨a, b, c, d, e, f, g, h, i⟩ := s
  revert a b c d e f g h i
  decide

/-- C1 witness: at the double-invocation scenario, exactly one of the two
invocations succeeded, and that scenario is indeed a stream failure whose
callback `setStatus` threw. -/
theorem reshard_error_status_written_at_most_once_witness :
    countSetStatusSuccesses
      (reshardPartitions ⟨true, false, false, false, true, true, false, false, false⟩).2 ≤ 1 ∧
    ReshardScenario.streamFails ⟨true, false, false, false, true, true, false, false, false⟩ = true ∧
    ReshardScenario.callbackSetStatusFails
      ⟨true, false, false, false, true, true, false, false, false⟩ = true :=
  ⟨(reshard_error_status_written_at_most_once
      ⟨true, false, false, false, true, true, false, false, false⟩).1,
   (reshard_error_status_written_at_most_once
      ⟨true, false, false, false, true, true, false, false, false⟩).2.2 (by decide)⟩

/-- C4: for every exception raised in the dispatch phase (after the coordinator
is created), the exception propagated to the caller is the original one —
whatever cleanup steps fail — the dump is logged, and when no cleanup step
itself throws, the cleanup performs the `ERROR` status write, the state dump
and the coordinator deletion. -/
theorem reshard_cleanup_and_rethrow (s : ReshardScenario)
    (hw : s.workerStarted = true) (hc : s.coordinatorSupplied = false)
    (hf : s.registerFails = true ∨ s.dispatchFails = true ∨ s.streamFails = true) :
    (reshardPartitions s).1 = some (originalError s) ∧
    WorkerEvent.logDump ∈ (reshardPartitions s).2 ∧
    (s.callbackSetStatusFails = false → s.cleanupSetStatusFails = false →
     s.dumpFails = false → s.deleteFails = false →
      WorkerEvent.setStatusError true ∈ (reshardPartitions s).2 ∧
      WorkerEvent.dumpState true ∈ (reshardPartitions s).2 ∧
      WorkerEvent.deleteCoordinator true ∈ (reshardPartitions s).2) := by
  obtain ⟨a, b, c, d, e, f, g, h, i⟩ := s
  revert a b c d e f g h i
  set_option synthInstance.maxSize 2000 in
  set_option synthInstance.maxHeartbeats 1000000 in
  decide

/-- C4 witness: a register-phase failure with a failing cleanup `setStatus`
still propagates the original register exception to the caller. -/
theorem reshard_cleanup_and_rethrow_witness :
    (reshardPartitions ⟨true, false, true, false, false, false, true, false, false⟩).1 =
      some (originalError ⟨true, false, true, false, false, false, true, false, false⟩) ∧
    WorkerEvent.logDump ∈
      (reshardPartitions ⟨true, false, true, false, false, false, true, false, false⟩).2 ∧
    (ReshardScenario.callbackSetStatusFails
        ⟨true, false, true, false, false, false, true, false, false⟩ = false →
     ReshardScenario.cleanupSetStatusFails
        ⟨true, false, true, false, false, false, true, false, false⟩ = false →
     ReshardScenario.dumpFails
        ⟨true, false, true, false, false, false, true, false, false⟩ = false →
     ReshardScenario.deleteFails
        ⟨true, false, true, false, false, false, true, false, false⟩ = false →
      WorkerEvent.setStatusError true ∈
        (reshardPartitions ⟨true, false, true, false, false, false, true, false, false⟩).2 ∧
      WorkerEvent.dumpState true ∈
        (reshardPartitions ⟨true, false, true, false, false, false, true, false, false⟩).2 ∧
      WorkerEvent.deleteCoordinator true ∈
        (reshardPartitions ⟨true, false, true, false, false, false, true, false, false⟩).2) :=
  reshard_cleanup_and_rethrow ⟨true, false, true, false, false, false, true, false, false⟩
    rfl rfl (Or.inl rfl)

/-- C5: resharding with the worker not started throws `RESHARDING_NO_WORKER`
and never calls `createCoordinator`; with the worker started but a non-null
caller-supplied coordination id it throws `RESHARDING_INVALID_PARAMETERS`,
again before any coordinator is created. -/
theorem reshard_precondition_checks (s : ReshardScenario) :
    (s.workerStarted = false →
      (reshardPartitions s).1 = some ReshardError.reshardingNoWorker ∧
      WorkerEvent.createCoordinator ∉ (reshardPartitions s).2) ∧
    (s.workerStarted = true → s.coordinatorSupplied = true →
      (reshardPartitions s).1 = some ReshardError.reshardingInvalidParameters ∧
      WorkerEvent.createCoordinator ∉ (reshardPartitions s).2) := by
  obtain ⟨a, b, c, d, e, f, g, h, i⟩ := s
  revert a b c d e f g h i
  decide

/-- C5 witness: both rejection paths at concrete scenarios. -/
theorem reshard_precondition_checks_witness :
    ((reshardPartitions ⟨false, true, false, false, false, false, false, false, false⟩).1 =
        some ReshardError.reshardingNoWorker ∧
      WorkerEvent.createCoordinator ∉
        (reshardPartitions ⟨false, true, false, false, false, false, false, false, false⟩).2) ∧
    ((reshardPartitions ⟨true, true, false, false, false, false, false, false, false⟩).1 =
        some ReshardError.reshardingInvalidParameters ∧
      WorkerEvent.createCoordinator ∉
        (reshardPartitions ⟨true, true, false, false, false, false, false, false, false⟩).2) :=
  ⟨(reshard_precondition_checks
      ⟨false, true, false, false, false, false, false, false, false⟩).1 rfl,
   (reshard_precondition_checks
      ⟨true, true, false, false, false, false, false, false, false⟩).2 rfl rfl⟩

/-! ## Helper lemmas -/

theorem mem_foldl_emplaceMonitor (l : List String) (ms : List String) (n : String) :
    n ∈ l.foldl emplaceMonitor ms ↔ n ∈ ms ∨ n ∈ l := by
  induction l generalizing ms with
  | nil => simp
  | cons a l ih =>
    rw [List.foldl_cons, ih]
    unfold emplaceMonitor
    by_cases h : a ∈ ms
    · simp only [if_pos h, List.mem_cons]
      constructor
      · rintro (h1 | h1) <;> tauto
      · rintro (h1 | rfl | h1) <;> tauto
    · simp only [if_neg h, List.mem_cons]
      tauto

theorem createDirectoryMonitors_write_enabled (t : StorageDistributed) (l : List DirEntry) :
    (t.createDirectoryMonitors l).write_enabled = t.write_enabled := by
  rw [StorageDistributed.createDirectoryMonitors]
  split <;> rfl

theorem createDirectoryMonitors_remote_database (t : StorageDistributed) (l : List DirEntry) :
    (t.createDirectoryMonitors l).remote_database = t.remote_database := by
  rw [StorageDistributed.createDirectoryMonitors]
  split <;> rfl

theorem createDirectoryMonitors_remote_table (t : StorageDistributed) (l : List DirEntry) :
    (t.createDirectoryMonitors l).remote_table = t.remote_table := by
  rw [StorageDistributed.createDirectoryMonitors]
  split <;> rfl

theorem create_write_enabled (name : String) (cols : List (String × String)) (db tbl : String)
    (cluster : Cluster) (key : Option String) (dp : String) (listing : List DirEntry) :
    (StorageDistributed.create name cols db tbl cluster key dp listing).write_enabled =
      (!dp.isEmpty &&
        (decide (cluster.getLocalShardCount + cluster.getRemoteShardCount < 2)
          || key.isSome)) := by
  rw [StorageDistributed.create, createDirectoryMonitors_write_enabled]

theorem create_remote_database (name : String) (cols : List (String × String)) (db tbl : String)
    (cluster : Cluster) (key : Option String) (dp : String) (listing : List DirEntry) :
    (StorageDistributed.create name cols db tbl cluster key dp listing).remote_database = db := by
  rw [StorageDistributed.create, createDirectoryMonitors_remote_database]

theorem create_remote_table (name : String) (cols : List (String × String)) (db tbl : String)
    (cluster : Cluster) (key : Option String) (dp : String) (listing : List DirEntry) :
    (StorageDistributed.create name cols db tbl cluster key dp listing).remote_table = tbl := by
  rw [StorageDistributed.create, createDirectoryMonitors_remote_table]

theorem append_slash_isEmpty_false (a b : String) : ((a ++ b) ++ "/").isEmpty = false := by
  rw [Bool.eq_false_iff]
  intro h
  have h2 : (a ++ b) ++ "/" = "" := (String.isEmpty_iff _).mp h
  have h3 := congrArg String.length h2
  rw [String.length_append, String.length_append] at h3
  have h4 : String.length "/" = 1 := rfl
  have h5 : String.length "" = 0 := rfl
  omega

/-! ## Theorems for the router claims -/

/-- C2 (counterexample): a table over a single-shard cluster with no sharding
key but also no configured data path has `write_enabled == false`, so `write`
throws `STORAGE_REQUIRES_PARAMETER` even though the claim promises success for
every table with exactly one total shard. -/
theorem write_fails_on_single_shard_without_data_path :
    (StorageDistributed.create "dist" [] "rdb" "rtbl" ⟨1, 0⟩ none "" []).cluster.getLocalShardCount
        + (StorageDistributed.create "dist" [] "rdb" "rtbl" ⟨1, 0⟩ none "" []).cluster.getRemoteShardCount
        = 1 ∧
    (StorageDistributed.create "dist" [] "rdb" "rtbl" ⟨1, 0⟩ none "" []).sharding_key = none ∧
    (StorageDistributed.create "dist" [] "rdb" "rtbl" ⟨1, 0⟩ none "" []).write
        (AST.insertQ ⟨"d0", "t0", none, []⟩) =
      Except.error WriteError.storageRequiresParameter :=
  ⟨rfl, rfl, rfl⟩

/-- C2 (amended): `write` throws `STORAGE_REQUIRES_PARAMETER` exactly when no
data path is configured or the cluster has at least two total shards and no
sharding key; with a data path configured and either a single total shard or a
sharding key, `write` returns the output stream over the rewritten insert. -/
theorem write_requires_parameter_iff (name : String) (cols : List (String × String))
    (db tbl : String) (cluster : Cluster) (key : Option String) (dp : String)
    (listing : List DirEntry) (q : ASTInsertQuery) :
    ((StorageDistributed.create name cols db tbl cluster key dp listing).write
        (AST.insertQ q) = Except.error WriteError.storageRequiresParameter ↔
      (dp.isEmpty = true ∨
        (2 ≤ cluster.getLocalShardCount + cluster.getRemoteShardCount ∧ key = none))) ∧
    ((dp.isEmpty = false ∧
        (cluster.getLocalShardCount + cluster.getRemoteShardCount < 2 ∨ key.isSome = true)) →
      (StorageDistributed.create name cols db tbl cluster key dp listing).write
        (AST.insertQ q) =
        Except.ok (AST.insertQ
          { q with database := db, table := tbl, selectSubquery := none })) := by
  have hw := create_write_enabled name cols db tbl cluster key dp listing
  have hdb := create_remote_database name cols db tbl cluster key dp listing
  have htb := create_remote_table name cols db tbl cluster key dp listing
  constructor
  · simp only [StorageDistributed.write, hw, hdb, htb, rewriteInsertQuery]
    cases hdp : dp.isEmpty <;> rcases key with _ | k <;>
      by_cases hc : cluster.getLocalShardCount + cluster.getRemoteShardCount < 2 <;>
        (simp [hc]; try omega)
  · rintro ⟨h1, h2⟩
    have hb : (!dp.isEmpty &&
        (decide (cluster.getLocalShardCount + cluster.getRemoteShardCount < 2)
          || key.isSome)) = true := by
      rcases h2 with h2 | h2 <;> simp [h1, h2]
    simp only [StorageDistributed.write, hw, hdb, htb, rewriteInsertQuery, hb]
    rfl

/-- C2 witness for the amended claim: one shard, no key, but a configured data
path — the write succeeds with the rewritten insert. -/
theorem write_requires_parameter_iff_witness :
    (StorageDistributed.create "dist" [] "rdb" "rtbl" ⟨1, 0⟩ none "/data/" []).write
        (AST.insertQ ⟨"d0", "t0", none, ["row payload"]⟩) =
      Except.ok (AST.insertQ ⟨"rdb", "rtbl", none, ["row payload"]⟩) :=
  (write_requires_parameter_iff "dist" [] "rdb" "rtbl" ⟨1, 0⟩ none "/data/" []
      ⟨"d0", "t0", none, ["row payload"]⟩).2 ⟨rfl, Or.inl (by decide)⟩

/-- C3: the processing stage reported by `read` is `Complete` iff
`remote shards * max_parallel_replicas + local shards == 1` or
`distributed_group_by_no_merge` is set, and otherwise `WithMergeableState`;
what `read` returns is exactly that stage. -/
theorem read_stage_complete_iff (t : StorageDistributed) (settings : Settings) (q : AST)
    (st : QueryProcessingStage) (ast2 : AST) :
    (t.processedStage settings = QueryProcessingStage.Complete ↔
      (t.cluster.getRemoteShardCount * settings.max_parallel_replicas
          + t.cluster.getLocalShardCount = 1 ∨
        settings.distributed_group_by_no_merge = true)) ∧
    (t.read q settings = some (st, ast2) → st = t.processedStage settings) := by
  constructor
  · simp only [StorageDistributed.processedStage, StorageDistributed.readResultSize]
    split
    · rename_i h
      simp only [Bool.or_eq_true, beq_iff_eq] at h
      exact iff_of_true rfl h
    · rename_i h
      simp only [Bool.or_eq_true, beq_iff_eq] at h
      exact iff_of_false (by simp) h
  · intro h
    simp only [StorageDistributed.read] at h
    cases hq : rewriteSelectQuery q t.remote_database t.remote_table with
    | none => rw [hq] at h; simp at h
    | some a =>
      rw [hq] at h
      simp only [Option.map_some', Option.some.injEq, Prod.mk.injEq] at h
      exact h.1.symm

/-- C3 witness: a single local shard with one parallel replica yields stage
`Complete`, and `read` reports it. -/
theorem read_stage_complete_iff_witness :
    QueryProcessingStage.Complete =
      StorageDistributed.processedStage
        ⟨"dist", [], "rdb", "rtbl", ⟨1, 0⟩, none, true, "", []⟩ ⟨1, false⟩ :=
  (read_stage_complete_iff ⟨"dist", [], "rdb", "rtbl", ⟨1, 0⟩, none, true, "", []⟩ ⟨1, false⟩
      (AST.selectQ ⟨none, none, ["clauseA"]⟩) QueryProcessingStage.Complete
      (AST.selectQ ⟨some "rdb", some "rtbl", ["clauseA"]⟩)).2 rfl

/-- C6: the `write_enabled` flag is computed at construction as
`dataPathConfigured AND (totalShardCount < 2 OR shardingKeyPresent)` and no
subsequent state-changing operation of the table (`alter` on either path,
`shutdown`, `createDirectoryMonitor`, `requireDirectoryMonitor`,
`createDirectoryMonitors`) ever changes it. -/
theorem write_enabled_computed_once_and_immutable :
    (∀ (name : String) (cols : List (String × String)) (db tbl : String) (cluster : Cluster)
        (key : Option String) (dp : String) (listing : List DirEntry),
      (StorageDistributed.create name cols db tbl cluster key dp listing).write_enabled =
        (!dp.isEmpty &&
          (decide (cluster.getLocalShardCount + cluster.getRemoteShardCount < 2)
            || key.isSome))) ∧
    (∀ (t : StorageDistributed) (params : List AlterCommand),
      ((t.alter params).2.1).write_enabled = t.write_enabled) ∧
    (∀ t : StorageDistributed, t.shutdown.write_enabled = t.write_enabled) ∧
    (∀ (t : StorageDistributed) (n : String),
      (t.createDirectoryMonitor n).write_enabled = t.write_enabled) ∧
    (∀ (t : StorageDistributed) (n : String),
      (t.requireDirectoryMonitor n).write_enabled = t.write_enabled) ∧
    (∀ (t : StorageDistributed) (l : List DirEntry),
      (t.createDirectoryMonitors l).write_enabled = t.write_enabled) := by
  refine ⟨create_write_enabled, ?_, fun t => rfl, fun t n => rfl, ?_,
    createDirectoryMonitors_write_enabled⟩
  · intro t params
    rw [StorageDistributed.alter]
    split <;> rfl
  · intro t n
    rw [StorageDistributed.requireDirectoryMonitor]
    split <;> rfl

/-- C7: rewriting a select query replaces exactly the database and table
identifiers and keeps every other clause; rewriting an insert query replaces
the bare database/table names, clears the embedded insert-select sub-query and
keeps the remaining payload. (The input is never modified: the rewriters
operate on a clone, which the pure embedding renders automatic.) -/
theorem rewrite_queries_replace_target_only (sq : ASTSelectQuery) (iq : ASTInsertQuery)
    (db tbl : String) :
    (∃ sq2, rewriteSelectQuery (AST.selectQ sq) db tbl = some (AST.selectQ sq2) ∧
      sq2.database = some db ∧ sq2.table = some tbl ∧ sq2.rest = sq.rest) ∧
    (∃ iq2, rewriteInsertQuery (AST.insertQ iq) db tbl = some (AST.insertQ iq2) ∧
      iq2.database = db ∧ iq2.table = tbl ∧ iq2.selectSubquery = none ∧
      iq2.rest = iq.rest) :=
  ⟨⟨_, rfl, rfl, rfl, rfl⟩, ⟨_, rfl, rfl, rfl, rfl, rfl⟩⟩

/-- C8: at startup with a configured data path, the adopted delivery queues are
exactly the names of the existing subdirectories of the table directory —
independently of how many pending batches each holds — and the concrete
two-subdirectory listing (one of them with zero pending batches) yields exactly
two monitors before any query. -/
theorem startup_adopts_every_subdirectory (name : String) (cols : List (String × String))
    (db tbl : String) (cluster : Cluster) (key : Option String) (dp : String)
    (listing : List DirEntry) (n : String) (hdp : dp.isEmpty = false) :
    ((n ∈ (StorageDistributed.create name cols db tbl cluster key dp listing).directory_monitors)
      ↔ ∃ e ∈ listing, e.isDirectory = true ∧ e.entryName = n) ∧
    (StorageDistributed.create "dist" [] "rdb" "rtbl" ⟨1, 1⟩ none "/data/"
        [⟨"shard_a", true, 0⟩, ⟨"shard_b", true, 5⟩]).directory_monitors.length = 2 := by
  constructor
  · simp only [StorageDistributed.create, StorageDistributed.createDirectoryMonitors, hdp,
      Bool.false_eq_true, if_false, append_slash_isEmpty_false]
    rw [mem_foldl_emplaceMonitor]
    simp only [List.not_mem_nil, false_or, List.mem_map, List.mem_filter]
    constructor
    · rintro ⟨e, ⟨he, hdir⟩, hname⟩
      exact ⟨e, he, hdir, hname⟩
    · rintro ⟨e, he, hdir, hname⟩
      exact ⟨e, ⟨he, hdir⟩, hname⟩
  · rfl

/-- C8 witness: the general adoption equivalence instantiated at the first
shard subdirectory of the concrete listing. -/
theorem startup_adopts_every_subdirectory_witness :
    (("shard_a" ∈ (StorageDistributed.create "dist" [] "rdb" "rtbl" ⟨1, 1⟩ none "/data/"
          [⟨"shard_a", true, 0⟩, ⟨"shard_b", true, 5⟩]).directory_monitors)
      ↔ ∃ e ∈ ([⟨"shard_a", true, 0⟩, ⟨"shard_b", true, 5⟩] : List DirEntry),
          e.isDirectory = true ∧ e.entryName = "shard_a") ∧
    (StorageDistributed.create "dist" [] "rdb" "rtbl" ⟨1, 1⟩ none "/data/"
        [⟨"shard_a", true, 0⟩, ⟨"shard_b", true, 5⟩]).directory_monitors.length = 2 :=
  startup_adopts_every_subdirectory "dist" [] "rdb" "rtbl" ⟨1, 1⟩ none "/data/"
    [⟨"shard_a", true, 0⟩, ⟨"shard_b", true, 5⟩] "shard_a" rfl

/-- C9: an `alter` whose command list contains a `MODIFY_PRIMARY_KEY` command
throws `NOT_IMPLEMENTED` with the table state unchanged and no structure lock
taken nor metadata persisted (empty side-effect trace); without such a command
all commands are applied to the schema and the trace is exactly the structure
lock followed by the database `alterTable` persistence call. -/
theorem alter_rejects_primary_key_modification (t : StorageDistributed)
    (params : List AlterCommand) :
    ((∃ p ∈ params, p.type = AlterCommandType.modifyPrimaryKey) →
      t.alter params = (some AlterError.notImplemented, t, [])) ∧
    ((∀ p ∈ params, p.type ≠ AlterCommandType.modifyPrimaryKey) →
      t.alter params =
        (none,
          { t with columns := params.foldl (fun cs p => p.applyOne cs) t.columns },
          [AlterEvent.lockStructureForAlter, AlterEvent.alterTableCall])) := by
  constructor
  · intro h
    have hb : params.any (fun p => p.type == AlterCommandType.modifyPrimaryKey) = true := by
      simp only [List.any_eq_true, beq_iff_eq]
      exact h
    rw [StorageDistributed.alter, if_pos hb]
  · intro h
    have hb : params.any (fun p => p.type == AlterCommandType.modifyPrimaryKey) = false := by
      simp only [List.any_eq_false, beq_iff_eq]
      exact h
    rw [StorageDistributed.alter, if_neg (by rw [hb]; exact Bool.false_ne_true)]

/-- C9 witness: a one-command primary-key alteration on a concrete table is
rejected with no state change and no side effects. -/
theorem alter_rejects_primary_key_modification_witness :
    StorageDistributed.alter ⟨"dist", [("x", "Int")], "rdb", "rtbl", ⟨1, 0⟩, none, true, "", []⟩
        [⟨AlterCommandType.modifyPrimaryKey, "x", "Int"⟩] =
      (some AlterError.notImplemented,
        ⟨"dist", [("x", "Int")], "rdb", "rtbl", ⟨1, 0⟩, none, true, "", []⟩, []) :=
  (alter_rejects_primary_key_modification
      ⟨"dist", [("x", "Int")], "rdb", "rtbl", ⟨1, 0⟩, none, true, "", []⟩
      [⟨AlterCommandType.modifyPrimaryKey, "x", "Int"⟩]).1
    ⟨⟨AlterCommandType.modifyPrimaryKey, "x", "Int"⟩, List.mem_singleton.mpr rfl, rfl⟩

/-- C10: `getShardCount` returns the remote shard count only; on a cluster with
no remote shards it returns 0 even though `read`'s fan-out (`result_size`)
still counts the local shards the table routes to. -/
theorem getShardCount_counts_remote_only (t : StorageDistributed) (settings : Settings) :
    t.getShardCount = t.cluster.getRemoteShardCount ∧
    (t.cluster.getRemoteShardCount = 0 →
      t.getShardCount = 0 ∧
      t.readResultSize settings = t.cluster.getLocalShardCount) := by
  refine ⟨rfl, fun h => ⟨h, ?_⟩⟩
  simp [StorageDistributed.readResultSize, h]

/-- C10 witness: a three-local-shard, zero-remote cluster reports shard count 0
while `read` still fans out to the three local shards. -/
theorem getShardCount_counts_remote_only_witness :
    StorageDistributed.getShardCount ⟨"dist", [], "rdb", "rtbl", ⟨3, 0⟩, none, true, "", []⟩ = 0 ∧
    StorageDistributed.readResultSize ⟨"dist", [], "rdb", "rtbl", ⟨3, 0⟩, none, true, "", []⟩
        ⟨4, false⟩ =
      Cluster.getLocalShardCount ⟨3, 0⟩ :=
  (getShardCount_counts_remote_only ⟨"dist", [], "rdb", "rtbl", ⟨3, 0⟩, none, true, "", []⟩
      ⟨4, false⟩).2 rfl

end StorageDistributedSpec
